import Mathlib

/-
Verification of the file-storage service (FastAPI + MinIO + SQLite).

The repository contains two application variants over the same stores:
  - app.py           : monolithic FastAPI application;
  - main.py          : layered variant delegating to services/minio_service.py,
                       services/database_service.py and models/file_model.py.

This file gives a shallow embedding of both variants and proves properties
about them.  Blobs are byte lists; the MinIO bucket is a key-indexed list of
stored objects with an availability flag modelling transport reachability;
the SQLite table is a list of rows plus the AUTOINCREMENT counter.  Endpoint
handlers become pure functions returning either a response payload or the
HTTP status produced by the handler's exception translation.
-/

namespace MinioApp

/-- Byte content of a file, one natural number per byte. -/
abbrev Bytes := List Nat

/-- Python's truthiness-based default `x or d` applied to an optional string:
None and the empty string both fall back to the default. -/
def pyOrStr : Option String → String → String
  | none, d => d
  | some s, d => if s = "" then d else s

/-- Python's `s.split(".")` over the character list of `s`. -/
def pySplitDot : List Char → List String
  | [] => [""]
  | c :: cs =>
    let rest := pySplitDot cs
    if c = '.' then "" :: rest
    else
      match rest with
      | [] => [String.mk [c]]
      | r :: rs => String.mk (c :: r.data) :: rs

/-- Python's `xs[-1]` on a nonempty list, with a default for the empty list
(`split` never returns an empty list, so the default is unreachable). -/
def lastD : List String → String → String
  | [], d => d
  | [x], _ => x
  | _ :: xs, d => lastD xs d

/-- Errors raised by the MinIO client: S3-level NoSuchKey versus transport
failure, the spec's ObjectNotFound / StoreUnavailable taxonomy. -/
inductive StoreError where
  | storeUnavailable
  | objectNotFound
deriving Repr, DecidableEq

/-- A blob stored in the bucket together with the content type it was put with. -/
structure StoredObject where
  data : Bytes
  contentType : String
deriving Repr, DecidableEq

/-- The MinIO bucket: a flat namespace of keys.  `available` models whether the
store is reachable over the network. -/
structure ObjectStore where
  objects : List (String × StoredObject)
  available : Bool
deriving Repr, DecidableEq

/-- minio_client.put_object: store the blob under the key (overwriting, as S3
PutObject does), or fail when the store is unreachable. -/
def ObjectStore.put (st : ObjectStore) (key : String) (b : Bytes) (ctype : String) :
    Except StoreError ObjectStore :=
  if st.available then
    .ok ⟨(key, ⟨b, ctype⟩) :: st.objects.filter (fun p => !(p.1 == key)), st.available⟩
  else
    .error .storeUnavailable

/-- minio_client.get_object: return the blob under the key, raise NoSuchKey if
absent, or fail when the store is unreachable. -/
def ObjectStore.get (st : ObjectStore) (key : String) : Except StoreError StoredObject :=
  if st.available then
    match st.objects.find? (fun p => p.1 == key) with
    | some p => .ok p.2
    | none => .error .objectNotFound
  else
    .error .storeUnavailable

/-- minio_client.remove_object.  S3 DeleteObject succeeds silently on a missing
key, so the actual MinIO client never reports ObjectNotFound here; the
`reportMissing` parameter additionally covers the provider the spec allows in
section 4.1, one that does error on a missing key. -/
def ObjectStore.remove (reportMissing : Bool) (st : ObjectStore) (key : String) :
    Except StoreError ObjectStore :=
  if st.available then
    if reportMissing && !(st.objects.any (fun p => p.1 == key)) then
      .error .objectNotFound
    else
      .ok ⟨st.objects.filter (fun p => !(p.1 == key)), st.available⟩
  else
    .error .storeUnavailable

/-- Whether the bucket holds a blob under the key. -/
def ObjectStore.hasKey (st : ObjectStore) (key : String) : Bool :=
  st.objects.any (fun p => p.1 == key)

/-- One row of the `files` table (app.py names the second column `filename`,
the layered schema `file_name`; the shape is identical). -/
structure FileRow where
  id : Nat
  file_name : String
  minio_object_key : String
  content_type : Option String
  size : Option Nat
  created_at : Nat
deriving Repr, DecidableEq

/-- The SQLite `files` table: its rows plus the AUTOINCREMENT counter for the
next `id` (ids are never reused). -/
structure DB where
  rows : List FileRow
  nextId : Nat
deriving Repr, DecidableEq

/-- Whether some row already uses the object key (the UNIQUE constraint). -/
def DB.hasKey (db : DB) (key : String) : Bool :=
  db.rows.any (fun r => r.minio_object_key == key)

/-- INSERT INTO files (...) VALUES (...): assigns the next id and stamps
created_at with the current time; raises IntegrityError when the UNIQUE
constraint on minio_object_key is violated. -/
def DB.insertRow (db : DB) (fn okey : String) (ct : Option String) (sz : Option Nat)
    (now : Nat) : Except Unit (DB × Nat) :=
  if db.hasKey okey then
    .error ()
  else
    .ok (⟨db.rows ++ [⟨db.nextId, fn, okey, ct, sz, now⟩], db.nextId + 1⟩, db.nextId)

/-- SELECT ... FROM files WHERE id = ?. -/
def DB.getRow (db : DB) (fid : Nat) : Option FileRow :=
  db.rows.find? (fun r => r.id == fid)

/-- DELETE FROM files WHERE id = ?: the new table and whether cursor.rowcount
was positive (a row was actually removed). -/
def DB.deleteRow (db : DB) (fid : Nat) : DB × Bool :=
  (⟨db.rows.filter (fun r => !(r.id == fid)), db.nextId⟩,
   db.rows.any (fun r => r.id == fid))

/-- The ORDER BY created_at DESC comparison: `a` may precede `b` when `b`'s
timestamp is no larger. -/
def rowsDesc (a b : FileRow) : Prop := b.created_at ≤ a.created_at

instance : DecidableRel rowsDesc := fun a b => Nat.decLe b.created_at a.created_at

instance : IsTotal FileRow rowsDesc := ⟨fun a b => Nat.le_total b.created_at a.created_at⟩

instance : IsTrans FileRow rowsDesc := ⟨fun _ _ _ h1 h2 => Nat.le_trans h2 h1⟩

/-- SELECT ... FROM files ORDER BY created_at DESC: all rows, newest first. -/
def DB.listRows (db : DB) : List FileRow :=
  List.insertionSort rowsDesc db.rows

/-- AUTOINCREMENT invariant: every existing id is below the counter. -/
def DB.WF (db : DB) : Prop := ∀ r ∈ db.rows, r.id < db.nextId

/-- Combined state of the two stores, plus a clock supplying the SQLite
CURRENT_TIMESTAMP default. -/
structure SysState where
  db : DB
  store : ObjectStore
  clock : Nat
deriving Repr, DecidableEq

/-- The JSON body returned by a successful POST /files/. -/
structure FileUploadResponse where
  id : Nat
  file_name : String
  minio_object_key : String
  message : String
deriving Repr, DecidableEq

/-- A successful streamed GET /files/{id}: the bytes, the media type put on
the StreamingResponse (None when the handler set none), and the filename used
in the Content-Disposition header. -/
structure DownloadOk where
  content : Bytes
  mediaType : Option String
  filename : String
deriving Repr, DecidableEq

/-- The empty `files` table right after init_db (AUTOINCREMENT starts at 1). -/
def emptyDB : DB := ⟨[], 1⟩

/-- Fresh system state: empty table, empty reachable bucket, clock at 0. -/
def initState : SysState := ⟨emptyDB, ⟨[], true⟩, 0⟩

/-- app.py upload_file.  `u` is the rendered uuid4; the object key is the uuid
followed by an underscore and the full original filename.  The blob is written
first with the measured length and the defaulted content type; the metadata
INSERT stores the raw (undefaulted) content type.  Any S3Error or other
exception becomes HTTP 500; a failed INSERT leaves the already-written blob in
place (no compensating delete). -/
def appUpload (s : SysState) (u fn : String) (ct : Option String) (content : Bytes) :
    Except Nat FileUploadResponse × SysState :=
  let object_key := u ++ "_" ++ fn
  let file_size := content.length
  match s.store.put object_key content (pyOrStr ct "application/octet-stream") with
  | .error _ => (.error 500, s)
  | .ok store1 =>
    match s.db.insertRow fn object_key ct (some file_size) s.clock with
    | .error _ => (.error 500, ⟨s.db, store1, s.clock⟩)
    | .ok (db1, fid) =>
      (.ok ⟨fid, fn, object_key, "File uploaded successfully"⟩, ⟨db1, store1, s.clock + 1⟩)

/-- app.py download_file: 404 when no row exists, then get_object; any S3Error
(NoSuchKey included) becomes HTTP 500; the media type falls back to
application/octet-stream when the stored content type is NULL or empty. -/
def appDownload (s : SysState) (fid : Nat) : Except Nat DownloadOk :=
  match s.db.getRow fid with
  | none => .error 404
  | some r =>
    match s.store.get r.minio_object_key with
    | .error _ => .error 500
    | .ok obj => .ok ⟨obj.data, some (pyOrStr r.content_type "application/octet-stream"), r.file_name⟩

/-- app.py list_files: reads only the database, newest first. -/
def appList (s : SysState) : Except Nat (List FileRow) :=
  .ok s.db.listRows

/-- app.py delete_file.  Blob removal is attempted before the metadata DELETE;
any error it reports (transport failure or a reported missing key) becomes
HTTP 500 with the row untouched.  `raced` models a concurrent delete removing
the row between the SELECT and the final DELETE; app.py never inspects the
final DELETE's rowcount, so the response does not depend on it. -/
def appDelete (reportMissing raced : Bool) (s : SysState) (fid : Nat) :
    Except Nat String × SysState :=
  match s.db.getRow fid with
  | none => (.error 404, s)
  | some r =>
    match ObjectStore.remove reportMissing s.store r.minio_object_key with
    | .error _ => (.error 500, s)
    | .ok store1 =>
      let db0 := if raced then (s.db.deleteRow fid).1 else s.db
      let db1 := (db0.deleteRow fid).1
      (.ok ("File " ++ toString fid ++ " deleted successfully"), ⟨db1, store1, s.clock⟩)

/-- Exceptions of the layered variant's plumbing. -/
inductive PyErr where
  | integrityError
  | validationError
  | typeError
  | s3Error (e : StoreError)
deriving Repr, DecidableEq

/-- pydantic model FileMetadata (models/file_model.py): created_at is declared
`str` with no default, hence required. -/
structure FileMetadata where
  id : Nat
  file_name : String
  minio_object_key : String
  content_type : Option String
  size : Option Nat
  created_at : String
deriving Repr, DecidableEq

/-- The keyword arguments actually passed to the FileMetadata constructor:
`none` in a field means the keyword was omitted at the call site. -/
structure FileMetadataArgs where
  id : Option Nat
  file_name : Option String
  minio_object_key : Option String
  content_type : Option (Option String)
  size : Option (Option Nat)
  created_at : Option String
deriving Repr, DecidableEq

/-- pydantic validation of a FileMetadata construction: id, file_name,
minio_object_key and created_at are required; content_type and size default
to None.  Omitting a required keyword raises ValidationError. -/
def FileMetadata.validate (a : FileMetadataArgs) : Except PyErr FileMetadata :=
  match a.id, a.file_name, a.minio_object_key, a.created_at with
  | some i, some fn, some k, some ca =>
    .ok ⟨i, fn, k, a.content_type.getD none, a.size.getD none, ca⟩
  | _, _, _, _ => .error .validationError

/-- services/database_service.py get_file_metadata: SELECTs only file_name,
minio_object_key and content_type, then constructs FileMetadata without the
required created_at keyword (and without size). -/
def get_file_metadata (db : DB) (fid : Nat) : Except PyErr (Option FileMetadata) :=
  match db.getRow fid with
  | none => .ok none
  | some r =>
    match FileMetadata.validate
        ⟨some fid, some r.file_name, some r.minio_object_key, some r.content_type,
         none, none⟩ with
    | .error e => .error e
    | .ok fm => .ok (some fm)

/-- services/database_service.py add_file_metadata: INSERT and commit, then
re-read the row through get_file_metadata and return its result.  The second
component is the table as left behind: the INSERT is committed even when the
subsequent re-read raises. -/
def add_file_metadata (db : DB) (fn okey : String) (ct : Option String) (sz : Option Nat)
    (now : Nat) : Except PyErr (Option FileMetadata) × DB :=
  match db.insertRow fn okey ct sz now with
  | .error _ => (.error .integrityError, db)
  | .ok (db1, fid) => (get_file_metadata db1 fid, db1)

/-- services/database_service.py delete_file_metadata: DELETE the row and
report whether rowcount was positive. -/
def delete_file_metadata (db : DB) (fid : Nat) : DB × Bool :=
  db.deleteRow fid

/-- The keyword arguments services/database_service.py list_files passes to
FileMetadata for one row: every field, created_at rendered as text. -/
def rowToMetaArgs (r : FileRow) : FileMetadataArgs :=
  ⟨some r.id, some r.file_name, some r.minio_object_key, some r.content_type,
   some r.size, some (toString r.created_at)⟩

/-- Validate each row in order, propagating the first exception. -/
def validateRows : List FileRow → Except PyErr (List FileMetadata)
  | [] => .ok []
  | r :: rs =>
    match FileMetadata.validate (rowToMetaArgs r) with
    | .error e => .error e
    | .ok fm =>
      match validateRows rs with
      | .error e => .error e
      | .ok fms => .ok (fm :: fms)

/-- services/database_service.py list_files: all rows newest first, each
converted to a FileMetadata (here every required keyword is supplied). -/
def list_files_svc (db : DB) : Except PyErr (List FileMetadata) :=
  validateRows db.listRows

/-- services/minio_service.py upload_file_to_minio: the object key is the uuid
followed by "_file." and the extension taken as the last piece of
filename.split("."); returns (filename, key, size, effective content type). -/
def upload_file_to_minio_svc (store : ObjectStore) (u fn : String) (ct : Option String)
    (content : Bytes) : Except PyErr ((String × String × Nat × String) × ObjectStore) :=
  let ext := lastD (pySplitDot fn.data) ""
  let object_key := u ++ "_file." ++ ext
  let content_type := pyOrStr ct "application/octet-stream"
  match store.put object_key content content_type with
  | .error e => .error (.s3Error e)
  | .ok st1 => .ok ((fn, object_key, content.length, content_type), st1)

/-- services/minio_service.py download_file_from_minio: get_object and stream
the bytes back. -/
def download_file_from_minio_svc (store : ObjectStore) (okey : String) :
    Except PyErr Bytes :=
  match store.get okey with
  | .error e => .error (.s3Error e)
  | .ok obj => .ok obj.data

/-- services/minio_service.py delete_file_from_minio: remove_object. -/
def delete_file_from_minio_svc (reportMissing : Bool) (store : ObjectStore)
    (okey : String) : Except PyErr ObjectStore :=
  match ObjectStore.remove reportMissing store okey with
  | .error e => .error (.s3Error e)
  | .ok st1 => .ok st1

/-- pydantic models are not subscriptable: `file["minio_object_key"]` in
main.py's delete handler raises TypeError for every FileMetadata instance. -/
def pydanticSubscript (_fm : FileMetadata) (_field : String) : Except PyErr String :=
  .error .typeError

/-- main.py uses the value returned by add_file_metadata (a FileMetadata model
or None, never an int) as the `id=` argument of FileUploadResponse; pydantic
rejects both for an int field. -/
def uploadRespFromMeta (_f : Option FileMetadata) : Except PyErr FileUploadResponse :=
  .error .validationError

/-- main.py upload_file: write the blob through the minio service, then
add_file_metadata (whose INSERT commits before its failing re-read), then
build the response; every exception becomes HTTP 500. -/
def mainUpload (s : SysState) (u fn : String) (ct : Option String) (content : Bytes) :
    Except Nat FileUploadResponse × SysState :=
  match upload_file_to_minio_svc s.store u fn ct content with
  | .error _ => (.error 500, s)
  | .ok ((fname, okey, fsize, ctype), store1) =>
    match add_file_metadata s.db fname okey (some ctype) (some fsize) s.clock with
    | (.error _, db1) => (.error 500, ⟨db1, store1, s.clock + 1⟩)
    | (.ok f, db1) =>
      match uploadRespFromMeta f with
      | .error _ => (.error 500, ⟨db1, store1, s.clock + 1⟩)
      | .ok resp => (.ok resp, ⟨db1, store1, s.clock + 1⟩)

/-- main.py download_file.  The handler's blanket `except Exception` also
catches the HTTPException(404) it itself raised for a missing row, re-raising
it as HTTP 500; the StreamingResponse media type is the record's content type
with no default applied. -/
def mainDownload (s : SysState) (fid : Nat) : Except Nat DownloadOk :=
  match get_file_metadata s.db fid with
  | .error _ => .error 500
  | .ok none => .error 500
  | .ok (some fm) =>
    match download_file_from_minio_svc s.store fm.minio_object_key with
    | .error _ => .error 500
    | .ok bs => .ok ⟨bs, fm.content_type, fm.file_name⟩

/-- main.py list_files_endpoint. -/
def mainList (s : SysState) : Except Nat (List FileMetadata) :=
  match list_files_svc s.db with
  | .error _ => .error 500
  | .ok fs => .ok fs

/-- main.py delete_file.  As in download, the blanket handler converts the
404 HTTPExceptions to 500; the subscript of the pydantic model raises before
any store interaction. -/
def mainDelete (reportMissing raced : Bool) (s : SysState) (fid : Nat) :
    Except Nat String × SysState :=
  match get_file_metadata s.db fid with
  | .error _ => (.error 500, s)
  | .ok none => (.error 500, s)
  | .ok (some fm) =>
    match pydanticSubscript fm "minio_object_key" with
    | .error _ => (.error 500, s)
    | .ok okey =>
      match delete_file_from_minio_svc reportMissing s.store okey with
      | .error _ => (.error 500, s)
      | .ok store1 =>
        let db0 := if raced then (s.db.deleteRow fid).1 else s.db
        match delete_file_metadata db0 fid with
        | (db1, deleted) =>
          if deleted then
            (.ok ("File " ++ toString fid ++ " deleted successfully"), ⟨db1, store1, s.clock⟩)
          else
            (.error 500, ⟨db1, store1, s.clock⟩)

/- Concrete states used to instantiate the theorems below. -/

/-- A state with one record (id 1, key "k") and its blob present. -/
def sRowBlob : SysState :=
  ⟨⟨[⟨1, "a.txt", "k", some "text/plain", some 2, 0⟩], 2⟩,
   ⟨[("k", ⟨[104, 105], "text/plain"⟩)], true⟩, 1⟩

/-- A state with one record (id 1, key "k") whose blob is absent. -/
def sRowNoBlob : SysState :=
  ⟨⟨[⟨1, "a.txt", "k", none, some 2, 0⟩], 2⟩, ⟨[], true⟩, 1⟩

/-- A state with one record (id 1, key "k"), its blob present, and the store
unreachable. -/
def sRowDown : SysState :=
  ⟨⟨[⟨1, "a.txt", "k", none, some 2, 0⟩], 2⟩,
   ⟨[("k", ⟨[104, 105], "text/plain"⟩)], false⟩, 1⟩

/-- Empty table, store unreachable. -/
def sDown : SysState := ⟨emptyDB, ⟨[], false⟩, 0⟩

/-- A state already holding a row under the key app.py would generate for
uuid "u" and filename "a". -/
def sDupApp : SysState := ⟨⟨[⟨1, "b", "u_a", none, none, 0⟩], 2⟩, ⟨[], true⟩, 1⟩

/-- A state already holding a row under the key the layered variant would
generate for uuid "u" and filename "a". -/
def sDupMain : SysState := ⟨⟨[⟨1, "b", "u_file.a", none, none, 0⟩], 2⟩, ⟨[], true⟩, 1⟩

/-- The state after uploading [7] as "a" with uuid "u" through app.py from
the initial state. -/
def sUp1 : SysState :=
  ⟨⟨[⟨1, "a", "u_a", none, some 1, 0⟩], 2⟩,
   ⟨[("u_a", ⟨[7], "application/octet-stream"⟩)], true⟩, 1⟩

/-- A state with one record whose content_type column is NULL and whose blob
is present. -/
def sCtNone : SysState :=
  ⟨⟨[⟨1, "a.txt", "k", none, some 2, 0⟩], 2⟩,
   ⟨[("k", ⟨[104, 105], "text/plain"⟩)], true⟩, 1⟩

/- Helper lemmas. -/

/-- Looking up the freshly assigned id in the table extended by the new row
finds exactly the new row, because every old id is below the counter. -/
theorem getRow_append_fresh (rows : List FileRow) (m nid : Nat) (row : FileRow)
    (hwf : ∀ r ∈ rows, r.id < nid) (hid : row.id = nid) :
    DB.getRow ⟨rows ++ [row], m⟩ nid = some row := by
  unfold DB.getRow
  rw [List.find?_append]
  have h1 : rows.find? (fun r => r.id == nid) = none := by
    rw [List.find?_eq_none]
    intro r hr
    simp only [beq_iff_eq]
    exact Nat.ne_of_lt (hwf r hr)
  rw [h1]
  simp [hid]

/-- After DELETE FROM files WHERE id = fid, no lookup of fid succeeds. -/
theorem getRow_deleteRow (db : DB) (fid : Nat) :
    ((db.deleteRow fid).1).getRow fid = none := by
  unfold DB.deleteRow DB.getRow
  rw [List.find?_eq_none]
  intro r hr
  simp only [List.mem_filter] at hr
  simpa using hr.2

/-- Deleting an id twice: the second DELETE removes no row. -/
theorem deleteRow_rowcount_twice (db : DB) (fid : Nat) :
    (((db.deleteRow fid).1).deleteRow fid).2 = false := by
  unfold DB.deleteRow
  simp only [List.any_eq_false]
  intro r hr
  simp only [List.mem_filter] at hr
  simpa using hr.2

/-- Reading back the key just written returns the blob just written. -/
theorem get_put (st st1 : ObjectStore) (key : String) (b : Bytes) (ctype : String)
    (h : st.put key b ctype = .ok st1) :
    st1.get key = .ok ⟨b, ctype⟩ := by
  unfold ObjectStore.put at h
  by_cases hav : st.available
  · rw [if_pos hav] at h
    cases h
    unfold ObjectStore.get
    simp [hav]
  · rw [if_neg hav] at h
    cases h

/-- The key just written is present in the bucket. -/
theorem hasKey_put (st st1 : ObjectStore) (key : String) (b : Bytes) (ctype : String)
    (h : st.put key b ctype = .ok st1) : st1.hasKey key = true := by
  unfold ObjectStore.put at h
  by_cases hav : st.available
  · rw [if_pos hav] at h; cases h; simp [ObjectStore.hasKey]
  · rw [if_neg hav] at h; cases h

/-- Distinct uuids of equal length yield distinct generated object keys, for
any pair of suffixes appended after the separator. -/
theorem key_ne_of_uuid_ne (u1 u2 a b : String)
    (hlen : u1.length = u2.length) (hne : u1 ≠ u2) :
    u1 ++ "_" ++ a ≠ u2 ++ "_" ++ b := by
  intro h
  apply hne
  have hd : (u1 ++ "_" ++ a).data = (u2 ++ "_" ++ b).data := congrArg String.data h
  rw [String.data_append, String.data_append, String.data_append, String.data_append] at hd
  rw [List.append_assoc, List.append_assoc] at hd
  have hlen' : u1.data.length = u2.data.length := hlen
  have := (List.append_inj hd hlen').1
  cases u1; cases u2; simp_all

/-- The UNIQUE check over an extended table. -/
theorem hasKey_append (rows : List FileRow) (m : Nat) (row : FileRow) (k : String) :
    DB.hasKey ⟨rows ++ [row], m⟩ k =
      (DB.hasKey ⟨rows, m⟩ k || (row.minio_object_key == k)) := by
  unfold DB.hasKey
  simp [List.any_append]

/-- Every row carries all the keywords list_files supplies, so validating a
row list never raises. -/
theorem validateRows_ok (l : List FileRow) :
    validateRows l = .ok (l.map (fun r =>
      ⟨r.id, r.file_name, r.minio_object_key, r.content_type, r.size,
       toString r.created_at⟩)) := by
  induction l with
  | nil => rfl
  | cons r rs ih =>
    unfold validateRows
    rw [ih]
    rfl

/-- ORDER BY does not change the number of rows. -/
theorem listRows_length (db : DB) : db.listRows.length = db.rows.length :=
  List.length_insertionSort rowsDesc db.rows

/-- Whatever the metadata INSERT does afterwards, the blob written first stays
readable under its key with the content type it was put with. -/
theorem appUpload_store_get
    (s : SysState) (u fn : String) (ct : Option String) (content : Bytes)
    (hav : s.store.available = true) :
    (appUpload s u fn ct content).2.store.get (u ++ "_" ++ fn) =
      .ok ⟨content, pyOrStr ct "application/octet-stream"⟩ := by
  cases hput : s.store.put (u ++ "_" ++ fn) content (pyOrStr ct "application/octet-stream") with
  | error e =>
    unfold ObjectStore.put at hput
    rw [if_pos hav] at hput
    cases hput
  | ok store1 =>
    have hget := get_put s.store store1 (u ++ "_" ++ fn) content
      (pyOrStr ct "application/octet-stream") hput
    simp only [appUpload, hput]
    cases hins : s.db.insertRow fn (u ++ "_" ++ fn) ct (some content.length) s.clock with
    | error e => simpa using hget
    | ok p =>
      obtain ⟨db1, fid⟩ := p
      simpa using hget

/- Claim theorems. -/

/-- C1: round-trip of content through the two stores.  For every state whose
table satisfies the AUTOINCREMENT invariant, if uploading a file with byte
content B through app.py succeeds, then downloading the id returned by that
upload yields exactly B, byte-for-byte: the blob written by put is the blob
returned by get under the generated object key recorded in the metadata
row (the response also carries the original filename and the defaulted
content type). -/
theorem upload_then_download_roundtrip
    (s : SysState) (u fn : String) (ct : Option String) (content : Bytes)
    (resp : FileUploadResponse) (s' : SysState)
    (hwf : s.db.WF)
    (h : appUpload s u fn ct content = (.ok resp, s')) :
    appDownload s' resp.id =
      .ok ⟨content, some (pyOrStr ct "application/octet-stream"), fn⟩ := by
  simp only [appUpload] at h
  cases hput : s.store.put (u ++ "_" ++ fn) content (pyOrStr ct "application/octet-stream") with
  | error e => rw [hput] at h; simp at h
  | ok store1 =>
    rw [hput] at h
    cases hins : s.db.insertRow fn (u ++ "_" ++ fn) ct (some content.length) s.clock with
    | error e => rw [hins] at h; simp at h
    | ok p =>
      obtain ⟨db1, fid⟩ := p
      rw [hins] at h
      simp only [Prod.mk.injEq, Except.ok.injEq] at h
      obtain ⟨hresp, hs'⟩ := h
      subst hresp
      subst hs'
      unfold DB.insertRow at hins
      by_cases hdup : s.db.hasKey (u ++ "_" ++ fn)
      · rw [if_pos hdup] at hins; cases hins
      · rw [if_neg hdup] at hins
        simp only [Except.ok.injEq, Prod.mk.injEq] at hins
        obtain ⟨hdb1, hfid⟩ := hins
        subst hdb1
        subst hfid
        unfold appDownload
        rw [getRow_append_fresh s.db.rows (s.db.nextId + 1) s.db.nextId
          ⟨s.db.nextId, fn, u ++ "_" ++ fn, ct, some content.length, s.clock⟩ hwf rfl]
        dsimp only
        rw [get_put s.store store1 (u ++ "_" ++ fn) content
          (pyOrStr ct "application/octet-stream") hput]

/-- Instantiation of the round-trip at a concrete upload of bytes [104, 105]
from the initial state. -/
theorem upload_then_download_roundtrip_witness :
    appDownload ⟨⟨[⟨1, "a.txt", "u_a.txt", none, some 2, 0⟩], 2⟩,
      ⟨[("u_a.txt", ⟨[104, 105], "application/octet-stream"⟩)], true⟩, 1⟩ 1 =
    .ok ⟨[104, 105], some "application/octet-stream", "a.txt"⟩ :=
  upload_then_download_roundtrip initState "u" "a.txt" none [104, 105]
    ⟨1, "a.txt", "u_a.txt", "File uploaded successfully"⟩
    ⟨⟨[⟨1, "a.txt", "u_a.txt", none, some 2, 0⟩], 2⟩,
      ⟨[("u_a.txt", ⟨[104, 105], "application/octet-stream"⟩)], true⟩, 1⟩
    (by intro r hr; simp [initState, emptyDB] at hr)
    (by rfl)

/-- C2: upload ordering invariant.  In both variants the object-store write is
performed before the metadata insert: when the store is unreachable the blob
write fails and the handler returns 500 with the table untouched, so a
FileRecord row exists only after the blob write returned successfully; when
the write succeeds but the metadata insert then fails (UNIQUE violation), the
handler errors without any compensating delete, leaving the already-written
blob in the bucket and inserting no row; and every successful app.py upload
leaves both the blob and a row under the recorded key. -/
theorem upload_write_precedes_insert
    (s : SysState) (u fn : String) (ct : Option String) (content : Bytes) :
    (s.store.available = false →
      appUpload s u fn ct content = (.error 500, s) ∧
      mainUpload s u fn ct content = (.error 500, s)) ∧
    (s.store.available = true → s.db.hasKey (u ++ "_" ++ fn) = true →
      (appUpload s u fn ct content).1 = .error 500 ∧
      (appUpload s u fn ct content).2.db = s.db ∧
      (appUpload s u fn ct content).2.store.hasKey (u ++ "_" ++ fn) = true) ∧
    (∀ resp s', appUpload s u fn ct content = (.ok resp, s') →
      s'.store.hasKey resp.minio_object_key = true ∧
      s'.db.hasKey resp.minio_object_key = true) ∧
    (s.store.available = true →
        s.db.hasKey (u ++ "_file." ++ lastD (pySplitDot fn.data) "") = true →
      (mainUpload s u fn ct content).1 = .error 500 ∧
      (mainUpload s u fn ct content).2.db = s.db ∧
      (mainUpload s u fn ct content).2.store.hasKey
        (u ++ "_file." ++ lastD (pySplitDot fn.data) "") = true) := by
  refine ⟨?_, ?_, ?_, ?_⟩
  · intro hdown
    constructor
    · simp [appUpload, ObjectStore.put, hdown]
    · simp [mainUpload, upload_file_to_minio_svc, ObjectStore.put, hdown]
  · intro hav hdup
    simp [appUpload, ObjectStore.put, DB.insertRow, hav, hdup, ObjectStore.hasKey]
  · intro resp s' h
    simp only [appUpload] at h
    cases hput : s.store.put (u ++ "_" ++ fn) content (pyOrStr ct "application/octet-stream") with
    | error e => rw [hput] at h; simp at h
    | ok store1 =>
      rw [hput] at h
      cases hins : s.db.insertRow fn (u ++ "_" ++ fn) ct (some content.length) s.clock with
      | error e => rw [hins] at h; simp at h
      | ok p =>
        obtain ⟨db1, fid⟩ := p
        rw [hins] at h
        simp only [Prod.mk.injEq, Except.ok.injEq] at h
        obtain ⟨hresp, hs'⟩ := h
        subst hresp
        subst hs'
        unfold DB.insertRow at hins
        by_cases hdup : s.db.hasKey (u ++ "_" ++ fn)
        · rw [if_pos hdup] at hins; cases hins
        · rw [if_neg hdup] at hins
          simp only [Except.ok.injEq, Prod.mk.injEq] at hins
          obtain ⟨hdb1, hfid⟩ := hins
          subst hdb1
          constructor
          · exact hasKey_put s.store store1 (u ++ "_" ++ fn) content _ hput
          · rw [hasKey_append]
            simp
  · intro hav hdup
    simp [mainUpload, upload_file_to_minio_svc, ObjectStore.put, hav,
      add_file_metadata, DB.insertRow, hdup, ObjectStore.hasKey]

/-- Instantiation of the upload ordering invariant: an unreachable store, a
duplicate key in each variant, and a successful upload. -/
theorem upload_write_precedes_insert_witness :
    (appUpload sDown "u" "a" none [] = (.error 500, sDown) ∧
     mainUpload sDown "u" "a" none [] = (.error 500, sDown)) ∧
    ((appUpload sDupApp "u" "a" none [7]).1 = .error 500 ∧
     (appUpload sDupApp "u" "a" none [7]).2.db = sDupApp.db ∧
     (appUpload sDupApp "u" "a" none [7]).2.store.hasKey ("u" ++ "_" ++ "a") = true) ∧
    (sUp1.store.hasKey "u_a" = true ∧ sUp1.db.hasKey "u_a" = true) ∧
    ((mainUpload sDupMain "u" "a" none [7]).1 = .error 500 ∧
     (mainUpload sDupMain "u" "a" none [7]).2.db = sDupMain.db ∧
     (mainUpload sDupMain "u" "a" none [7]).2.store.hasKey
       ("u" ++ "_file." ++ lastD (pySplitDot "a".data) "") = true) :=
  ⟨(upload_write_precedes_insert sDown "u" "a" none []).1 rfl,
   (upload_write_precedes_insert sDupApp "u" "a" none [7]).2.1 rfl rfl,
   (upload_write_precedes_insert initState "u" "a" none [7]).2.2.1
     ⟨1, "a", "u_a", "File uploaded successfully"⟩ sUp1 rfl,
   (upload_write_precedes_insert sDupMain "u" "a" none [7]).2.2.2 rfl rfl⟩

/-- C3 counterexample: with a record present, its blob absent, and a provider
that reports the missing key (which section 4.1 of the spec explicitly
allows), app.py's delete does NOT treat ObjectNotFound as non-fatal: the
blanket `except S3Error` turns it into HTTP 500 and the operation aborts with
the metadata row untouched, contradicting the claim that the operation still
succeeds and proceeds to remove the metadata row. -/
theorem delete_objectnotfound_aborts :
    appDelete true false sRowNoBlob 1 = (.error 500, sRowNoBlob) ∧
    sRowNoBlob.db.getRow 1 = some ⟨1, "a.txt", "k", none, some 2, 0⟩ ∧
    sRowNoBlob.store.hasKey "k" = false :=
  ⟨rfl, rfl, rfl⟩

/-- C3 amended: blob removal is attempted first.  With the actual MinIO
client, whose DeleteObject reports nothing for a missing key, a delete of an
id whose record exists succeeds and removes the metadata row whether or not
the blob is still present; a transport failure aborts with HTTP 500 before
the metadata row is touched; and with a provider that does report the missing
key, that reported error likewise aborts with HTTP 500 before the metadata
row is touched, because the code treats every S3 error at this step as
fatal. -/
theorem delete_error_contract
    (s : SysState) (fid : Nat) (r : FileRow) (h : s.db.getRow fid = some r) :
    (s.store.available = true →
      (appDelete false false s fid).1 =
        .ok ("File " ++ toString fid ++ " deleted successfully") ∧
      (appDelete false false s fid).2.db.getRow fid = none) ∧
    (s.store.available = false →
      appDelete false false s fid = (.error 500, s) ∧
      appDelete true false s fid = (.error 500, s)) ∧
    (s.store.available = true → s.store.hasKey r.minio_object_key = false →
      appDelete true false s fid = (.error 500, s)) := by
  refine ⟨?_, ?_, ?_⟩
  · intro hav
    unfold appDelete
    rw [h]
    simp only [ObjectStore.remove, hav, if_true, Bool.false_and, Bool.false_eq_true,
      if_false, if_neg]
    constructor
    · trivial
    · exact getRow_deleteRow s.db fid
  · intro hdown
    unfold appDelete
    rw [h]
    simp [ObjectStore.remove, hdown]
  · intro hav hmiss
    unfold appDelete
    rw [h]
    unfold ObjectStore.hasKey at hmiss
    simp [ObjectStore.remove, hav, hmiss]

/-- Instantiation of the delete error contract: a record whose blob is gone
still deletes successfully; an unreachable store aborts with the row kept. -/
theorem delete_error_contract_witness :
    ((appDelete false false sRowNoBlob 1).1 = .ok "File 1 deleted successfully" ∧
     (appDelete false false sRowNoBlob 1).2.db.getRow 1 = none) ∧
    (appDelete false false sRowDown 1 = (.error 500, sRowDown) ∧
     appDelete true false sRowDown 1 = (.error 500, sRowDown)) :=
  ⟨(delete_error_contract sRowNoBlob 1 ⟨1, "a.txt", "k", none, some 2, 0⟩ rfl).1 rfl,
   (delete_error_contract sRowDown 1 ⟨1, "a.txt", "k", none, some 2, 0⟩ rfl).2.1 rfl⟩

/-- C4: the layered variant maps a download of an id with no metadata row to
HTTP 500, not 404 — its handler raises HTTPException(404) and then catches it
with the blanket `except Exception`, re-raising 500 — while the monolithic
app.py returns 404 for the missing record and 500 for a record whose blob is
absent, as the claim states. -/
theorem main_download_missing_record_is_500 :
    mainDownload initState 1 = .error 500 ∧
    appDownload initState 1 = .error 404 ∧
    appDownload sRowNoBlob 1 = .error 500 :=
  ⟨rfl, rfl, rfl⟩

/-- C5: in the layered variant, for every id whose metadata row exists,
get_file_metadata raises a ValidationError because it constructs FileMetadata
without the required created_at field (and without size); consequently
main.py's download and delete return HTTP 500 for every existing record and
leave the state unchanged, and subscripting the pydantic model (as delete's
file["minio_object_key"] does) raises TypeError for every instance. -/
theorem layered_metadata_lookup_raises
    (db : DB) (fid : Nat) (r : FileRow) (h : db.getRow fid = some r)
    (s : SysState) (hs : s.db = db) (rm rc : Bool) (fm : FileMetadata) :
    get_file_metadata db fid = .error .validationError ∧
    mainDownload s fid = .error 500 ∧
    mainDelete rm rc s fid = (.error 500, s) ∧
    pydanticSubscript fm "minio_object_key" = .error .typeError := by
  have hg : get_file_metadata db fid = .error .validationError := by
    unfold get_file_metadata
    rw [h]
    rfl
  refine ⟨hg, ?_, ?_, rfl⟩
  · unfold mainDownload
    rw [hs, hg]
  · unfold mainDelete
    rw [hs, hg]

/-- Instantiation of the layered lookup failure at a state with one record. -/
theorem layered_metadata_lookup_raises_witness :
    get_file_metadata sRowBlob.db 1 = .error .validationError ∧
    mainDownload sRowBlob 1 = .error 500 ∧
    mainDelete false false sRowBlob 1 = (.error 500, sRowBlob) ∧
    pydanticSubscript ⟨1, "a.txt", "k", none, none, "0"⟩ "minio_object_key" =
      .error .typeError :=
  layered_metadata_lookup_raises sRowBlob.db 1
    ⟨1, "a.txt", "k", some "text/plain", some 2, 0⟩ rfl sRowBlob rfl false false
    ⟨1, "a.txt", "k", none, none, "0"⟩

/-- C6 counterexample: in the layered variant the claim's sources cite, the
FIRST delete of an existing id already fails with HTTP 500 (metadata lookup
raises), even with the record present, its blob present, and the store
reachable — so deleting the same id twice does not make the first call
succeed. -/
theorem layered_first_delete_errors :
    mainDelete false false sRowBlob 1 = (.error 500, sRowBlob) ∧
    sRowBlob.db.getRow 1 = some ⟨1, "a.txt", "k", some "text/plain", some 2, 0⟩ ∧
    sRowBlob.store.hasKey "k" = true ∧
    sRowBlob.store.available = true :=
  ⟨rfl, rfl, rfl, rfl⟩

/-- C6 amended: in the monolithic app.py the claimed semantics hold — the
first delete of an existing id succeeds, the second fails with 404
(RecordNotFound); and app.py never inspects the rowcount of its final DELETE,
so even when a concurrent delete removed the row first (rowcount zero) the
operation still reports success.  In the layered main.py the first delete
fails with HTTP 500 for every existing record. -/
theorem app_delete_twice_semantics
    (s : SysState) (fid : Nat) (r : FileRow)
    (h : s.db.getRow fid = some r) (hav : s.store.available = true) (raced : Bool) :
    (raced = true → (((s.db.deleteRow fid).1).deleteRow fid).2 = false) ∧
    (appDelete false raced s fid).1 =
      .ok ("File " ++ toString fid ++ " deleted successfully") ∧
    (appDelete false raced s fid).2.db.getRow fid = none ∧
    (appDelete false false ((appDelete false raced s fid).2) fid).1 = .error 404 := by
  have hdel : appDelete false raced s fid =
      (.ok ("File " ++ toString fid ++ " deleted successfully"),
       ⟨((if raced then (s.db.deleteRow fid).1 else s.db).deleteRow fid).1,
        ⟨s.store.objects.filter (fun p => !(p.1 == r.minio_object_key)), s.store.available⟩,
        s.clock⟩) := by
    unfold appDelete
    rw [h]
    simp only [ObjectStore.remove, hav, if_true, Bool.false_and, Bool.false_eq_true, if_neg,
      if_false]
  have hgone : (((if raced then (s.db.deleteRow fid).1 else s.db).deleteRow fid).1).getRow fid
      = none := by
    cases raced
    · simp only [if_neg, if_false, Bool.false_eq_true]
      exact getRow_deleteRow s.db fid
    · simp only [if_pos, if_true]
      exact getRow_deleteRow (s.db.deleteRow fid).1 fid
  refine ⟨?_, ?_, ?_, ?_⟩
  · intro hr
    exact deleteRow_rowcount_twice s.db fid
  · rw [hdel]
  · rw [hdel]
    exact hgone
  · rw [hdel]
    unfold appDelete
    dsimp only
    rw [hgone]

/-- Instantiation of the app.py delete semantics with the raced final DELETE
removing no row. -/
theorem app_delete_twice_semantics_witness :
    ((((sRowBlob.db.deleteRow 1).1).deleteRow 1).2 = false) ∧
    (appDelete false true sRowBlob 1).1 = .ok "File 1 deleted successfully" ∧
    (appDelete false true sRowBlob 1).2.db.getRow 1 = none ∧
    (appDelete false false ((appDelete false true sRowBlob 1).2) 1).1 = .error 404 :=
  ⟨((app_delete_twice_semantics sRowBlob 1 ⟨1, "a.txt", "k", some "text/plain", some 2, 0⟩
      rfl rfl true).1 rfl),
   (app_delete_twice_semantics sRowBlob 1 ⟨1, "a.txt", "k", some "text/plain", some 2, 0⟩
      rfl rfl true).2.1,
   (app_delete_twice_semantics sRowBlob 1 ⟨1, "a.txt", "k", some "text/plain", some 2, 0⟩
      rfl rfl true).2.2.1,
   (app_delete_twice_semantics sRowBlob 1 ⟨1, "a.txt", "k", some "text/plain", some 2, 0⟩
      rfl rfl true).2.2.2⟩

/-- C7: upload postcondition on the metadata table.  For a reachable store and
fresh uuids (distinct, of equal rendered length, and not colliding with any
existing key), each successful app.py upload makes the listing exactly one
record longer; the new row carries the client-supplied file_name and a size
equal to the byte length of the uploaded content, under an object key absent
from the table before the upload; and two uploads with the same file_name but
different uuids yield two records with distinct id and distinct object_key. -/
theorem upload_list_postcondition
    (s : SysState) (u1 u2 fn : String) (ct1 ct2 : Option String) (c1 c2 : Bytes)
    (hav : s.store.available = true)
    (hlen : u1.length = u2.length) (hne : u1 ≠ u2)
    (hf1 : s.db.hasKey (u1 ++ "_" ++ fn) = false)
    (hf2 : s.db.hasKey (u2 ++ "_" ++ fn) = false) :
    (appUpload s u1 fn ct1 c1).1 =
      .ok ⟨s.db.nextId, fn, u1 ++ "_" ++ fn, "File uploaded successfully"⟩ ∧
    (appUpload s u1 fn ct1 c1).2.db.rows =
      s.db.rows ++ [⟨s.db.nextId, fn, u1 ++ "_" ++ fn, ct1, some c1.length, s.clock⟩] ∧
    (appUpload s u1 fn ct1 c1).2.db.listRows.length = s.db.listRows.length + 1 ∧
    (appUpload s u1 fn ct1 c1).2.db.hasKey (u2 ++ "_" ++ fn) = false ∧
    (appUpload (appUpload s u1 fn ct1 c1).2 u2 fn ct2 c2).1 =
      .ok ⟨s.db.nextId + 1, fn, u2 ++ "_" ++ fn, "File uploaded successfully"⟩ ∧
    (appUpload (appUpload s u1 fn ct1 c1).2 u2 fn ct2 c2).2.db.listRows.length =
      s.db.listRows.length + 2 ∧
    s.db.nextId ≠ s.db.nextId + 1 ∧
    u1 ++ "_" ++ fn ≠ u2 ++ "_" ++ fn := by
  have hkne : u1 ++ "_" ++ fn ≠ u2 ++ "_" ++ fn :=
    key_ne_of_uuid_ne u1 u2 fn fn hlen hne
  have hA : appUpload s u1 fn ct1 c1 =
      (.ok ⟨s.db.nextId, fn, u1 ++ "_" ++ fn, "File uploaded successfully"⟩,
       ⟨⟨s.db.rows ++ [⟨s.db.nextId, fn, u1 ++ "_" ++ fn, ct1, some c1.length, s.clock⟩],
         s.db.nextId + 1⟩,
        ⟨(u1 ++ "_" ++ fn, ⟨c1, pyOrStr ct1 "application/octet-stream"⟩) ::
          s.store.objects.filter (fun p => !(p.1 == u1 ++ "_" ++ fn)), true⟩,
        s.clock + 1⟩) := by
    simp only [appUpload, ObjectStore.put, DB.insertRow, hav, if_true, hf1,
      Bool.false_eq_true, if_false, if_neg]
  have hk2 : (appUpload s u1 fn ct1 c1).2.db.hasKey (u2 ++ "_" ++ fn) = false := by
    rw [hA]
    rw [hasKey_append]
    simp only [Bool.or_eq_false_iff]
    constructor
    · exact hf2
    · simp only [beq_eq_false_iff_ne]
      exact hkne
  have hB : appUpload (appUpload s u1 fn ct1 c1).2 u2 fn ct2 c2 =
      (.ok ⟨s.db.nextId + 1, fn, u2 ++ "_" ++ fn, "File uploaded successfully"⟩,
       ⟨⟨(s.db.rows ++ [⟨s.db.nextId, fn, u1 ++ "_" ++ fn, ct1, some c1.length, s.clock⟩]) ++
          [⟨s.db.nextId + 1, fn, u2 ++ "_" ++ fn, ct2, some c2.length, s.clock + 1⟩],
         s.db.nextId + 1 + 1⟩,
        ⟨(u2 ++ "_" ++ fn, ⟨c2, pyOrStr ct2 "application/octet-stream"⟩) ::
          (((u1 ++ "_" ++ fn, (⟨c1, pyOrStr ct1 "application/octet-stream"⟩ : StoredObject)) ::
            s.store.objects.filter (fun p => !(p.1 == u1 ++ "_" ++ fn))).filter
              (fun p => !(p.1 == u2 ++ "_" ++ fn))), true⟩,
        s.clock + 1 + 1⟩) := by
    have hk2' : DB.hasKey
        ⟨s.db.rows ++ [⟨s.db.nextId, fn, u1 ++ "_" ++ fn, ct1, some c1.length, s.clock⟩],
         s.db.nextId + 1⟩ (u2 ++ "_" ++ fn) = false := by
      have := hk2
      rw [hA] at this
      exact this
    rw [hA]
    simp only [appUpload, ObjectStore.put, DB.insertRow, if_true, hk2',
      Bool.false_eq_true, if_false, if_neg]
  refine ⟨?_, ?_, ?_, hk2, ?_, ?_, ?_, hkne⟩
  · rw [hA]
  · rw [hA]
  · rw [hA]
    rw [listRows_length, listRows_length]
    simp
  · rw [hB]
  · rw [hB]
    rw [listRows_length, listRows_length]
    simp
  · exact Nat.ne_of_lt (Nat.lt_succ_self _)

/-- Instantiation of the upload postcondition: two uploads of "a.txt" with
different contents from the initial state. -/
theorem upload_list_postcondition_witness :
    (appUpload initState "u1" "a.txt" none [1]).1 =
      .ok ⟨1, "a.txt", "u1_a.txt", "File uploaded successfully"⟩ ∧
    (appUpload initState "u1" "a.txt" none [1]).2.db.rows =
      [⟨1, "a.txt", "u1_a.txt", none, some 1, 0⟩] ∧
    (appUpload initState "u1" "a.txt" none [1]).2.db.listRows.length =
      initState.db.listRows.length + 1 ∧
    (appUpload initState "u1" "a.txt" none [1]).2.db.hasKey "u2_a.txt" = false ∧
    (appUpload (appUpload initState "u1" "a.txt" none [1]).2 "u2" "a.txt" none [2, 3]).1 =
      .ok ⟨2, "a.txt", "u2_a.txt", "File uploaded successfully"⟩ ∧
    (appUpload (appUpload initState "u1" "a.txt" none [1]).2
        "u2" "a.txt" none [2, 3]).2.db.listRows.length =
      initState.db.listRows.length + 2 ∧
    (1 : Nat) ≠ 2 ∧
    ("u1_a.txt" : String) ≠ "u2_a.txt" :=
  upload_list_postcondition initState "u1" "u2" "a.txt" none none [1] [2, 3]
    rfl rfl (by decide) rfl rfl

/-- C8: listing returns all FileRecord rows ordered by created_at descending,
in both variants reads nothing but the database (the result is invariant
under any change of the object-store component), and on the empty table
returns the empty sequence rather than an error; the layered list_files
supplies every required keyword, so its row conversion never raises. -/
theorem list_returns_rows_sorted (s : SysState) (store' : ObjectStore) (clock' : Nat) :
    appList s = .ok s.db.listRows ∧
    s.db.listRows.Perm s.db.rows ∧
    s.db.listRows.Sorted rowsDesc ∧
    appList ⟨s.db, store', clock'⟩ = appList s ∧
    mainList ⟨s.db, store', clock'⟩ = mainList s ∧
    appList initState = .ok [] ∧
    mainList initState = .ok [] ∧
    mainList s = .ok (s.db.listRows.map (fun r =>
      ⟨r.id, r.file_name, r.minio_object_key, r.content_type, r.size,
       toString r.created_at⟩)) := by
  refine ⟨rfl, List.perm_insertionSort rowsDesc s.db.rows,
    List.sorted_insertionSort rowsDesc s.db.rows, rfl, rfl, rfl, rfl, ?_⟩
  unfold mainList list_files_svc
  rw [validateRows_ok]

/-- C9: content-type defaulting.  An upload that supplies no content type
writes the blob with the effective type application/octet-stream in both
variants, and an app.py download of a record whose stored content_type is
NULL streams with media type defaulted to application/octet-stream. -/
theorem content_type_defaulting
    (s : SysState) (u fn : String) (content : Bytes) (fid : Nat) (r : FileRow)
    (obj : StoredObject)
    (hav : s.store.available = true)
    (hrow : s.db.getRow fid = some r) (hct : r.content_type = none)
    (hobj : s.store.get r.minio_object_key = .ok obj) :
    (appUpload s u fn none content).2.store.get (u ++ "_" ++ fn) =
      .ok ⟨content, "application/octet-stream"⟩ ∧
    (∃ st1, upload_file_to_minio_svc s.store u fn none content =
      .ok ((fn, u ++ "_file." ++ lastD (pySplitDot fn.data) "", content.length,
        "application/octet-stream"), st1)) ∧
    appDownload s fid = .ok ⟨obj.data, some "application/octet-stream", r.file_name⟩ := by
  refine ⟨appUpload_store_get s u fn none content hav, ?_, ?_⟩
  · refine ⟨⟨(u ++ "_file." ++ lastD (pySplitDot fn.data) "",
      ⟨content, "application/octet-stream"⟩) ::
      s.store.objects.filter
        (fun p => !(p.1 == u ++ "_file." ++ lastD (pySplitDot fn.data) "")), true⟩, ?_⟩
    simp only [upload_file_to_minio_svc, ObjectStore.put, hav, if_true, pyOrStr]
  · unfold appDownload
    rw [hrow]
    dsimp only
    rw [hobj, hct]
    rfl

/-- Instantiation of the content-type defaulting at a record whose
content_type column is NULL. -/
theorem content_type_defaulting_witness :
    (appUpload sCtNone "u" "a.txt" none [9]).2.store.get "u_a.txt" =
      .ok ⟨[9], "application/octet-stream"⟩ ∧
    (∃ st1, upload_file_to_minio_svc sCtNone.store "u" "a.txt" none [9] =
      .ok (("a.txt", "u_file.txt", 1, "application/octet-stream"), st1)) ∧
    appDownload sCtNone 1 = .ok ⟨[104, 105], some "application/octet-stream", "a.txt"⟩ :=
  content_type_defaulting sCtNone "u" "a.txt" [9] 1
    ⟨1, "a.txt", "k", none, some 2, 0⟩ ⟨[104, 105], "text/plain"⟩ rfl rfl rfl rfl

/-- C10 counterexample: the two entry points are not behaviorally equivalent.
From the same fresh state, the request sequence consisting of the single
download of id 1 gets response 404 from app.py and response 500 from main.py
— no generated identifiers are involved, so the difference is not covered by
the up-to-identifier allowance. -/
theorem variants_not_equivalent :
    appDownload initState 1 = .error 404 ∧
    mainDownload initState 1 = .error 500 ∧
    appDownload initState 1 ≠ mainDownload initState 1 :=
  ⟨rfl, rfl, fun h => absurd (Except.error.inj h) (by decide)⟩

/-- C10 amended: the two entry points represent the same design but are not
behaviorally equivalent.  They diverge on: missing-id download and delete
(404 in app.py, 500 in main.py); download and delete of an existing record
(success in app.py, always 500 in main.py); upload response (success in
app.py, 500 in main.py even though main.py still writes both the blob and the
row); and the generated object keys (uuid + full filename versus uuid +
"_file." + extension). -/
theorem variants_divergence :
    (appDelete false false initState 1).1 = .error 404 ∧
    (mainDelete false false initState 1).1 = .error 500 ∧
    appDownload sRowBlob 1 = .ok ⟨[104, 105], some "text/plain", "a.txt"⟩ ∧
    mainDownload sRowBlob 1 = .error 500 ∧
    (appDelete false false sRowBlob 1).1 = .ok "File 1 deleted successfully" ∧
    (mainDelete false false sRowBlob 1).1 = .error 500 ∧
    (appUpload initState "u" "a.txt" none [104, 105]).1 =
      .ok ⟨1, "a.txt", "u_a.txt", "File uploaded successfully"⟩ ∧
    (mainUpload initState "u" "a.txt" none [104, 105]).1 = .error 500 ∧
    (mainUpload initState "u" "a.txt" none [104, 105]).2.db.rows =
      [⟨1, "a.txt", "u_file.txt", some "application/octet-stream", some 2, 0⟩] ∧
    (mainUpload initState "u" "a.txt" none [104, 105]).2.store.hasKey "u_file.txt" = true ∧
    (appUpload initState "u" "a.txt" none [104, 105]).2.store.hasKey "u_a.txt" = true ∧
    ("u_a.txt" : String) ≠ "u_file.txt" :=
  ⟨rfl, rfl, rfl, rfl, rfl, rfl, rfl, rfl, rfl, rfl, rfl, by decide⟩

end MinioApp
